import Mathlib

/-!
Shallow embedding of the pending-expense ledger of this repository
(`src/app/services/pending_store.py`) and the HTTP workflow layer built on it
(`src/app/routers/pending.py`, `src/app/routers/expenses.py`).

Modelling conventions:
* Python floats are modelled as exact rationals (`ℚ`); `round(x, 2)` is
  modelled by `round2`, rounding to the nearest multiple of `1/100`.
* A Python date string field is modelled by its parse result
  (`Option Date`): `none` stands for the empty string or any string
  `_parse_yyyy_mm_dd` rejects.
* Python `dict` records are modelled by the structure `PendingRec`, whose
  fields are exactly the keys `add_pending` normalizes plus the keys the
  code adds later (`approved_at`, `rejected_at`, attachment flags).
* The JSON file persistence (`_load` / `_save`) is the identity on the
  in-memory dict and is not modelled; the store state is the dict itself,
  an association list keyed by `expense_id` in insertion order.
* Wall-clock reads (`time.time()`) are passed in as a `now : Nat`
  parameter; `_next_id` becomes `next_id now`.
-/

namespace PendingLedger

/-- Calendar date, the parse result of a `YYYY-MM-DD` string. -/
structure Date where
  y : Nat
  m : Nat
  d : Nat
deriving DecidableEq, Repr

/-- `a < b` for dates, lexicographic as in Python `datetime.date`. -/
def Date.blt (a b : Date) : Bool :=
  a.y < b.y || (a.y = b.y && (a.m < b.m || (a.m = b.m && a.d < b.d)))

/-- `a ≤ b` for dates, lexicographic as in Python `datetime.date`. -/
def Date.ble (a b : Date) : Bool :=
  a.y < b.y || (a.y = b.y && (a.m < b.m || (a.m = b.m && a.d ≤ b.d)))

/-- `_month_bounds` of `pending_store.py`: first day of `today`'s month and
first day of the next month. -/
def month_bounds (today : Date) : Date × Date :=
  let start : Date := { y := today.y, m := today.m, d := 1 }
  let nxt : Date :=
    if start.m = 12 then { y := start.y + 1, m := 1, d := 1 }
    else { y := start.y, m := start.m + 1, d := 1 }
  (start, nxt)

/-- Python `round(x, 2)`: rounding to the nearest cent. -/
def round2 (q : ℚ) : ℚ := (round (q * 100) : ℤ) / 100

/-- Python `str.strip()` over the character list (kernel-reducible, unlike
`String.trim`). -/
def pyStrip (s : String) : String :=
  String.mk
    (((s.data.dropWhile Char.isWhitespace).reverse.dropWhile
        Char.isWhitespace).reverse)

/-- Python `str.lower()` over the character list (kernel-reducible, unlike
`String.toLower`). -/
def pyLower (s : String) : String :=
  String.mk (s.data.map Char.toLower)

/-- A rational that is a whole number of cents (every 2-decimal amount). -/
def Cent (q : ℚ) : Prop := ∃ n : ℤ, q = (n : ℚ) / 100

/-- Receipt reference as stored by `add_receipt` / passed to clearing. -/
structure Receipt where
  filename : String
  url : String
  created_at : Nat
deriving DecidableEq, Repr

/-- Upstream (Zoho) response, reduced to the identifiers the code reads. -/
structure ZohoResp where
  expense_id : Option String := none
  journal_id : Option String := none
deriving DecidableEq, Repr

/-- One entry of an accrued record's `clearing` list. -/
structure ClearingEntry where
  clearing_id : String
  amount : Option ℚ
  paid_through_account_id : String
  paid_through_account_name : String
  date : Option Date
  reference_number : String
  source_payment_id : String
  receipts : List Receipt
  created_at : Nat
deriving DecidableEq, Repr

/-- The raw-payload mirror kept under the record's `payload` key, reduced to
the keys `_sync_payload_from_record` writes. -/
structure Payload where
  date : Option Date := none
  vendor_id : Option String := none
  vendor_name : Option String := none
  reference_number : Option String := none
  description : Option String := none
  expense_account_id : Option String := none
  paid_through_account_id : Option String := none
  amount : Option ℚ := none
deriving DecidableEq, Repr

/-- A stored ledger record: the keys `add_pending` normalizes, plus the keys
state transitions add later (`approved_at`, `rejected_at`, attachment flags),
modelled as `Option` with `none` for "key absent". -/
structure PendingRec where
  expense_id : String
  status : String
  created_at : Nat
  created_by : Option String
  date : Option Date
  vendor_id : Option String
  vendor_name : String
  amount : Option ℚ
  reference_number : String
  expense_type : String
  pending_kind : String
  expense_account_id : String
  paid_through_account_id : String
  paid_through_account_name : String
  description : String
  receipts : List Receipt
  zoho_posted : Bool
  zoho_error : Option String
  zoho_response : Option ZohoResp
  zoho_expense_id : Option String
  zoho_journal_id : Option String
  balance : Option ℚ
  clearing : List ClearingEntry
  cleared_at : Option Nat
  source_accrued_expense_id : String
  payload : Payload
  approved_at : Option Nat
  rejected_at : Option Nat
  zoho_attachment_posted : Option Bool
  zoho_attachment_error : Option String
deriving DecidableEq, Repr

/-- The all-empty record, used only to give concrete witnesses a default. -/
def emptyRec : PendingRec :=
  { expense_id := "", status := "", created_at := 0, created_by := none
    date := none, vendor_id := none, vendor_name := "", amount := none
    reference_number := "", expense_type := "", pending_kind := ""
    expense_account_id := "", paid_through_account_id := ""
    paid_through_account_name := "", description := "", receipts := []
    zoho_posted := false, zoho_error := none, zoho_response := none
    zoho_expense_id := none, zoho_journal_id := none, balance := none
    clearing := [], cleared_at := none, source_accrued_expense_id := ""
    payload := {}, approved_at := none, rejected_at := none
    zoho_attachment_posted := none, zoho_attachment_error := none }

/-- The in-memory dict `self._data`: association list keyed by expense id,
in insertion order (Python dicts preserve insertion order). -/
abbrev Store := List (String × PendingRec)

/-- `self._data.get(key)`. -/
def Store.get (st : Store) (k : String) : Option PendingRec :=
  (st.find? (fun kv => kv.1 = k)).map (fun kv => kv.2)

/-- `self._data[key] = v`: replace in place if present, else append. -/
def Store.set (st : Store) (k : String) (v : PendingRec) : Store :=
  if st.any (fun kv => kv.1 = k) then
    st.map (fun kv => if kv.1 = k then (k, v) else kv)
  else st ++ [(k, v)]

/-- `del self._data[key]`. -/
def Store.erase (st : Store) (k : String) : Store :=
  st.filter (fun kv => kv.1 ≠ k)

/-- `self._data.values()`. -/
def Store.values (st : Store) : List PendingRec :=
  st.map (fun kv => kv.2)

theorem Store.get_set_self (st : Store) (k : String) (v : PendingRec) :
    (st.set k v).get k = some v := by
  unfold Store.set Store.get
  split
  · rename_i h
    induction st with
    | nil => simp [List.any] at h
    | cons kv rest ih =>
      by_cases hk : kv.1 = k
      · simp [List.find?, hk]
      · simp only [List.map_cons, List.find?]
        simp only [List.any_cons, Bool.or_eq_true, decide_eq_true_eq] at h
        rcases h with h | h
        · exact absurd h hk
        · simpa [hk] using ih h
  · rename_i h
    induction st with
    | nil => simp [List.find?]
    | cons kv rest ih =>
      simp only [List.any_cons, Bool.or_eq_true, decide_eq_true_eq, not_or] at h
      simp only [List.cons_append, List.find?, decide_eq_true_eq]
      simp only [h.1, decide_False]
      exact ih h.2

theorem Store.get_set_ne (st : Store) (k k' : String) (v : PendingRec)
    (h : k' ≠ k) : (st.set k v).get k' = st.get k' := by
  unfold Store.set Store.get
  split
  · have hfind : ∀ l : Store,
        List.find? (fun kv => kv.1 = k')
            (l.map (fun kv => if kv.1 = k then (k, v) else kv))
          = List.find? (fun kv => kv.1 = k') l := by
      intro l
      induction l with
      | nil => simp
      | cons kv rest ih =>
        by_cases hk : kv.1 = k
        · simp [List.find?, hk, Ne.symm h, ih]
        · by_cases hk' : kv.1 = k'
          · simp [List.find?, hk, hk', h]
          · simp [List.find?, hk, hk', ih]
    rw [hfind]
  · simp [List.find?_append, Ne.symm h]

/-- A freshly written value is among the store's values. -/
theorem Store.set_mem_values (st : Store) (k : String) (v : PendingRec) :
    v ∈ (st.set k v).values := by
  unfold Store.set Store.values
  split
  · rename_i h
    simp only [List.any_eq_true, decide_eq_true_eq] at h
    obtain ⟨kv, hmem, hk⟩ := h
    have hmap : (k, v) ∈ st.map (fun kv => if kv.1 = k then (k, v) else kv) := by
      have := List.mem_map_of_mem (fun kv => if kv.1 = k then (k, v) else kv) hmem
      simpa [hk] using this
    simpa using List.mem_map_of_mem (fun kv => kv.2) hmap
  · simp

/-- Python `a or b` on an optional string (`some ""` is falsy). -/
def strOr (a b : Option String) : Option String :=
  match a with
  | some s => if s = "" then b else some s
  | none => b

/-- Python `rec.get("cleared_at") or now` (`0` and `None` are falsy). -/
def truthyOr (o : Option Nat) (now : Nat) : Nat :=
  match o with
  | some t => if t = 0 then now else t
  | none => now

/-- `sum(_safe_float(c.get("amount")) or 0.0 for c in clearing)`. -/
def clearingTotal (clearing : List ClearingEntry) : ℚ :=
  (clearing.map (fun c => c.amount.getD 0)).sum

/-- `self._next_id()`: `str(int(time.time() * 1000))`. -/
def next_id (now : Nat) : String := toString (now * 1000)

/-- The dict handed to `add_pending`.  String keys read with `or` defaults
are plain `String` with `""` for "absent or empty"; keys the code reads
raw (`record.get(k)`) are `Option`. -/
structure InputRecord where
  expense_id : String := ""
  status : String := ""
  created_by : Option String := none
  date : Option Date := none
  vendor_id : Option String := none
  vendor_name : String := ""
  amount : Option ℚ := none
  reference_number : String := ""
  expense_type : String := ""
  pending_kind : String := ""
  expense_account_id : String := ""
  paid_through_account_id : String := ""
  paid_through_account_name : String := ""
  description : String := ""
  receipts : List Receipt := []
  zoho_posted : Bool := false
  zoho_error : Option String := none
  zoho_response : Option ZohoResp := none
  zoho_expense_id : Option String := none
  zoho_journal_id : Option String := none
  balance : Option ℚ := none
  clearing : List ClearingEntry := []
  cleared_at : Option Nat := none
  source_accrued_expense_id : String := ""
  source_expense_id : String := ""
  payload : Option Payload := none
deriving DecidableEq, Repr

/-- `payload = record.get("payload") or record`: when no payload dict is
given, the record dict itself plays the payload role; this projects the
record onto the payload keys the code reads. -/
def InputRecord.asPayload (r : InputRecord) : Payload :=
  { date := r.date
    vendor_id := r.vendor_id
    vendor_name := some r.vendor_name
    reference_number := some r.reference_number
    description := some r.description
    expense_account_id := some r.expense_account_id
    paid_through_account_id := some r.paid_through_account_id
    amount := r.amount }

/-- `PendingStore.add_pending`: normalize the input dict and store it under
`expense_id` (creating or overwriting). -/
def add_pending (now : Nat) (record : InputRecord) (st : Store) :
    PendingRec × Store :=
  let expense_id := if record.expense_id = "" then next_id now
                    else record.expense_id
  let payload := record.payload.getD record.asPayload
  let vendor_name :=
    if record.vendor_name ≠ "" then record.vendor_name
    else (payload.vendor_name.getD "")
  let amount := record.amount
  let exp_type := pyStrip (pyLower (if record.expense_type = "" then "ordinary"
                    else record.expense_type))
  let pk0 := pyLower (pyStrip record.pending_kind)
  let pending_kind :=
    if pk0 = "expense" ∨ pk0 = "accrued_payment" then pk0
    else if exp_type = "accrued_payment" then "accrued_payment" else "expense"
  let balance0 := record.balance
  let balance :=
    if exp_type = "accrued" ∧ balance0 = none then amount else balance0
  let normalized : PendingRec :=
    { expense_id := expense_id
      status := pyLower (pyStrip (if record.status = "" then "pending"
                  else record.status))
      created_at := now
      created_by := record.created_by
      date := record.date
      vendor_id := record.vendor_id
      vendor_name := vendor_name
      amount := amount
      reference_number := record.reference_number
      expense_type := exp_type
      pending_kind := pending_kind
      expense_account_id := record.expense_account_id
      paid_through_account_id := record.paid_through_account_id
      paid_through_account_name := record.paid_through_account_name
      description := record.description
      receipts := record.receipts
      zoho_posted := record.zoho_posted
      zoho_error := record.zoho_error
      zoho_response := record.zoho_response
      zoho_expense_id := record.zoho_expense_id
      zoho_journal_id := record.zoho_journal_id
      balance := balance
      clearing := record.clearing
      cleared_at := record.cleared_at
      source_accrued_expense_id :=
        if record.source_accrued_expense_id ≠ "" then
          record.source_accrued_expense_id
        else record.source_expense_id
      payload := payload
      approved_at := none
      rejected_at := none
      zoho_attachment_posted := none
      zoho_attachment_error := none }
  (normalized, st.set expense_id normalized)

/-- `PendingStore._sync_payload_from_record`: mirror canonical fields back
into the raw payload so later posting sees edits. -/
def sync_payload_from_record (rec : PendingRec) : PendingRec :=
  let p := rec.payload
  let p := { p with date := rec.date <|> p.date }
  let p := { p with vendor_id := strOr rec.vendor_id p.vendor_id }
  let p := { p with vendor_name := strOr (some rec.vendor_name) p.vendor_name }
  let p := { p with reference_number :=
                      strOr (some rec.reference_number) p.reference_number }
  let p := { p with description := strOr (some rec.description) p.description }
  let p :=
    if (if rec.pending_kind = "" then "expense" else rec.pending_kind)
        = "expense" then
      { p with expense_account_id :=
                 strOr (some rec.expense_account_id) p.expense_account_id }
    else p
  let p := { p with paid_through_account_id :=
                      strOr (some rec.paid_through_account_id)
                        p.paid_through_account_id }
  let p := if rec.amount ≠ none then { p with amount := rec.amount } else p
  { rec with payload := p }

/-- `PendingStore._recompute_accrued_balance_if_needed`:
`balance = max(amount - sum(clearing), 0)` on accrued records (no rounding
on this path). -/
def recompute_accrued_balance_if_needed (rec : PendingRec) : PendingRec :=
  if pyLower rec.expense_type ≠ "accrued" then rec
  else
    let amt := rec.amount.getD 0
    let new_bal := max (amt - clearingTotal rec.clearing) 0
    { rec with balance := some new_bal }

/-- A patch dict handed to `update` / `update_fields`; `none` means the key
is absent, `some v` that the key is present with value `v`. -/
structure Patch where
  status : Option String := none
  date : Option (Option Date) := none
  vendor_id : Option (Option String) := none
  vendor_name : Option String := none
  amount : Option (Option ℚ) := none
  reference_number : Option String := none
  description : Option String := none
  expense_type : Option String := none
  pending_kind : Option String := none
  expense_account_id : Option String := none
  paid_through_account_id : Option String := none
  paid_through_account_name : Option String := none
  balance : Option (Option ℚ) := none
  clearing : Option (List ClearingEntry) := none
  cleared_at : Option (Option Nat) := none
  zoho_posted : Option Bool := none
  zoho_error : Option (Option String) := none
  zoho_response : Option (Option ZohoResp) := none
  zoho_expense_id : Option (Option String) := none
  zoho_journal_id : Option (Option String) := none
  zoho_attachment_posted : Option Bool := none
  zoho_attachment_error : Option (Option String) := none
  payload : Option Payload := none
deriving DecidableEq, Repr

/-- `rec.update(fields)`: present keys overwrite the record's values. -/
def applyPatch (rec : PendingRec) (f : Patch) : PendingRec :=
  { rec with
    status := f.status.getD rec.status
    date := f.date.getD rec.date
    vendor_id := f.vendor_id.getD rec.vendor_id
    vendor_name := f.vendor_name.getD rec.vendor_name
    amount := f.amount.getD rec.amount
    reference_number := f.reference_number.getD rec.reference_number
    description := f.description.getD rec.description
    expense_type := f.expense_type.getD rec.expense_type
    pending_kind := f.pending_kind.getD rec.pending_kind
    expense_account_id := f.expense_account_id.getD rec.expense_account_id
    paid_through_account_id :=
      f.paid_through_account_id.getD rec.paid_through_account_id
    paid_through_account_name :=
      f.paid_through_account_name.getD rec.paid_through_account_name
    balance := f.balance.getD rec.balance
    clearing := f.clearing.getD rec.clearing
    cleared_at := f.cleared_at.getD rec.cleared_at
    zoho_posted := f.zoho_posted.getD rec.zoho_posted
    zoho_error := f.zoho_error.getD rec.zoho_error
    zoho_response := f.zoho_response.getD rec.zoho_response
    zoho_expense_id := f.zoho_expense_id.getD rec.zoho_expense_id
    zoho_journal_id := f.zoho_journal_id.getD rec.zoho_journal_id
    zoho_attachment_posted :=
      match f.zoho_attachment_posted with
      | some b => some b
      | none => rec.zoho_attachment_posted
    zoho_attachment_error :=
      f.zoho_attachment_error.getD rec.zoho_attachment_error
    payload := f.payload.getD rec.payload }

/-- `PendingStore.update_fields`: unconditional patch (admin path), then
payload re-sync and accrued-balance recompute. -/
def update_fields (st : Store) (expense_id : String) (fields : Patch) :
    Option PendingRec × Store :=
  match st.get expense_id with
  | none => (none, st)
  | some rec =>
    let rec2 := recompute_accrued_balance_if_needed
      (sync_payload_from_record (applyPatch rec fields))
    (some rec2, st.set expense_id rec2)

/-- `PendingStore.update`: edit path restricted to `pending` records, then
payload re-sync and accrued-balance recompute. -/
def update (st : Store) (expense_id : String) (updates : Patch) :
    Option PendingRec × Store :=
  match st.get expense_id with
  | none => (none, st)
  | some rec =>
    if rec.status ≠ "pending" then (none, st)
    else
      let rec2 := recompute_accrued_balance_if_needed
        (sync_payload_from_record (applyPatch rec updates))
      (some rec2, st.set expense_id rec2)

/-- `PendingStore.delete`. -/
def delete (st : Store) (expense_id : String) : Bool × Store :=
  if (st.get expense_id).isSome then (true, st.erase expense_id)
  else (false, st)

/-- `PendingStore.approve` (store level): unconditionally sets
`status = "approved"` and stamps `approved_at`. -/
def approve (st : Store) (expense_id : String) (now : Nat)
    (zoho_response : Option ZohoResp) : Bool × Store :=
  match st.get expense_id with
  | none => (false, st)
  | some rec =>
    let rec1 := { rec with status := "approved", approved_at := some now }
    let rec2 :=
      match zoho_response with
      | none => rec1
      | some resp =>
        { rec1 with zoho_posted := true, zoho_error := none
                    zoho_response := some resp }
    (true, st.set expense_id rec2)

/-- `PendingStore.reject` (store level): unconditionally sets
`status = "rejected"` and stamps `rejected_at`. -/
def reject (st : Store) (expense_id : String) (now : Nat) : Bool × Store :=
  match st.get expense_id with
  | none => (false, st)
  | some rec =>
    let rec2 := { rec with status := "rejected", rejected_at := some now }
    (true, st.set expense_id rec2)

/-- `PendingStore.add_receipt`: append a receipt reference, any status. -/
def add_receipt (st : Store) (expense_id : String)
    (filename url : String) (now : Nat) : Option PendingRec × Store :=
  match st.get expense_id with
  | none => (none, st)
  | some rec =>
    let rec2 := { rec with receipts :=
                    rec.receipts ++ [⟨filename, url, now⟩] }
    (some rec2, st.set expense_id rec2)

/-- The record `clear_accrued` writes back on its success path. -/
def clearAccruedRecord (rec : PendingRec) (now : Nat) (amount : ℚ)
    (paid_through_account_id : String)
    (paid_through_account_name : Option String)
    (clearing_date : Option Date) (reference_number : Option String)
    (source_payment_id : Option String) (receipts : Option (List Receipt)) :
    PendingRec :=
  let new_entry : ClearingEntry :=
    { clearing_id := toString (now * 1000)
      amount := some amount
      paid_through_account_id := paid_through_account_id
      paid_through_account_name := paid_through_account_name.getD ""
      date := clearing_date
      reference_number := reference_number.getD ""
      source_payment_id := source_payment_id.getD ""
      receipts := receipts.getD []
      created_at := now }
  let clearing := rec.clearing ++ [new_entry]
  let total_cleared := clearingTotal clearing
  let orig_amt := rec.amount.getD 0
  let bal := max 0 (round2 (orig_amt - total_cleared))
  { rec with
    clearing := clearing
    balance := some bal
    cleared_at := if bal ≤ 0 then some (truthyOr rec.cleared_at now)
                  else none }

/-- `PendingStore.clear_accrued`: append a clearing entry and recompute
`balance = max(0, round(amount - sum(clearing), 2))`; fails (returning the
state untouched) on a non-positive amount, a missing record, a status other
than `approved`, or a non-accrued record. -/
def clear_accrued (st : Store) (expense_id : String) (now : Nat)
    (amount : ℚ) (paid_through_account_id : String)
    (paid_through_account_name : Option String := none)
    (clearing_date : Option Date := none)
    (reference_number : Option String := none)
    (source_payment_id : Option String := none)
    (receipts : Option (List Receipt) := none) :
    Option PendingRec × Store :=
  if amount ≤ 0 then (none, st)
  else
    match st.get expense_id with
    | none => (none, st)
    | some rec =>
      if rec.status ≠ "approved" then (none, st)
      else if pyLower rec.expense_type ≠ "accrued" then (none, st)
      else
        let rec2 := clearAccruedRecord rec now amount
          paid_through_account_id paid_through_account_name clearing_date
          reference_number source_payment_id receipts
        (some rec2, st.set expense_id rec2)

/-- Patch dict for one clearing entry (`update_clearing` callers send the
keys of `ClearingEditPayload`). -/
structure ClearingPatch where
  amount : Option (Option ℚ) := none
  paid_through_account_id : Option String := none
  paid_through_account_name : Option String := none
  date : Option (Option Date) := none
  reference_number : Option String := none
deriving DecidableEq, Repr

/-- `c.update(updates)` for a clearing entry. -/
def applyClearingPatch (c : ClearingEntry) (p : ClearingPatch) :
    ClearingEntry :=
  { c with
    amount := p.amount.getD c.amount
    paid_through_account_id :=
      p.paid_through_account_id.getD c.paid_through_account_id
    paid_through_account_name :=
      p.paid_through_account_name.getD c.paid_through_account_name
    date := p.date.getD c.date
    reference_number := p.reference_number.getD c.reference_number }

/-- Patch the first entry whose `clearing_id` matches, as the `for`/`break`
loop in `update_clearing` does; `none` when no entry matches. -/
def updateFirstClearing (cid : String) (p : ClearingPatch) :
    List ClearingEntry → Option (ClearingEntry × List ClearingEntry)
  | [] => none
  | c :: rest =>
    if c.clearing_id = cid then
      let c2 := applyClearingPatch c p
      some (c2, c2 :: rest)
    else
      match updateFirstClearing cid p rest with
      | none => none
      | some (f, rest2) => some (f, c :: rest2)

/-- `PendingStore.update_clearing`. -/
def update_clearing (st : Store) (expense_id clearing_id : String)
    (updates : ClearingPatch) (now : Nat) :
    Option ClearingEntry × Store :=
  match st.get expense_id with
  | none => (none, st)
  | some rec =>
    if pyLower rec.expense_type ≠ "accrued" then (none, st)
    else
      match updateFirstClearing clearing_id updates rec.clearing with
      | none => (none, st)
      | some (found, clearing2) =>
        let total_cleared := clearingTotal clearing2
        let orig_amt := rec.amount.getD 0
        let bal := max 0 (round2 (orig_amt - total_cleared))
        let rec2 := { rec with
          clearing := clearing2
          balance := some bal
          cleared_at := if bal ≤ 0 then some now else none }
        (some found, st.set expense_id rec2)

/-- `PendingStore.delete_clearing`. -/
def delete_clearing (st : Store) (expense_id clearing_id : String)
    (now : Nat) : Bool × Store :=
  match st.get expense_id with
  | none => (false, st)
  | some rec =>
    if pyLower rec.expense_type ≠ "accrued" then (false, st)
    else
      let new_list := rec.clearing.filter
        (fun c => c.clearing_id ≠ clearing_id)
      if new_list.length = rec.clearing.length then (false, st)
      else
        let total_cleared := clearingTotal new_list
        let orig_amt := rec.amount.getD 0
        let bal := max 0 (round2 (orig_amt - total_cleared))
        let rec2 := { rec with
          clearing := new_list
          balance := some bal
          cleared_at := if bal ≤ 0 then some now else none }
        (true, st.set expense_id rec2)

/-- Python `list.sort(key=key, reverse=True)`: stable descending sort. -/
def sortRecsBy (key : PendingRec → Nat) (l : List PendingRec) :
    List PendingRec :=
  l.insertionSort (fun a b => key b ≤ key a)

theorem mem_sortRecsBy (key : PendingRec → Nat) (l : List PendingRec)
    (r : PendingRec) : r ∈ sortRecsBy key l ↔ r ∈ l :=
  (List.perm_insertionSort (fun a b => key b ≤ key a) l).mem_iff

/-- `PendingStore.list_pending`: `status == "pending"`, newest first. -/
def list_pending (st : Store) : List PendingRec :=
  sortRecsBy (fun r => r.created_at)
    (st.values.filter (fun r => r.status == "pending"))

/-- The effective `pending_kind`: `rec.get("pending_kind") or "expense"`. -/
def effKind (r : PendingRec) : String :=
  if r.pending_kind = "" then "expense" else r.pending_kind

/-- The two date guards of `list_approved`'s record loop. -/
def dateFilterPass (sd ed : Option Date) (d : Option Date) : Bool :=
  (match sd with
   | none => true
   | some s =>
     match d with
     | none => false
     | some dd => ! Date.blt dd s) &&
  (match ed with
   | none => true
   | some e =>
     match d with
     | none => false
     | some dd => Date.blt dd e)

/-- The effective date bounds of `list_approved`: the current-month default
applies only when neither date argument was passed and the flag is set. -/
def approvedBounds (start_date end_date : Option (Option Date))
    (default_current_month : Bool) (today : Date) :
    Option Date × Option Date :=
  if start_date = none ∧ end_date = none ∧ default_current_month then
    (some (month_bounds today).1, some (month_bounds today).2)
  else (start_date.getD none, end_date.getD none)

/-- `PendingStore.list_approved`.  A date-range argument is
`Option (Option Date)`: the outer level is Python truthiness of the passed
string (`none` = absent or empty), the inner level its parse result. -/
def list_approved (st : Store) (start_date end_date : Option (Option Date))
    (default_current_month : Bool) (today : Date) : List PendingRec :=
  let bounds := approvedBounds start_date end_date default_current_month today
  let sd := bounds.1
  let ed := bounds.2
  sortRecsBy (fun r => r.approved_at.getD 0)
    (st.values.filter (fun rec =>
      rec.status == "approved" && effKind rec == "expense" &&
      dateFilterPass sd ed rec.date))

/-!
Router layer (`src/app/routers/pending.py`, `src/app/routers/expenses.py`).
The external collaborators are passed in as parameters: the outcome of the
upstream `zoho_json` POST (`Except String ZohoResp`, with `.error e` for a
raised exception whose `str` is `e`), the chart-of-accounts row for the
accrued liability account (`Option (id × name)`), and the per-file errors
of the attachment-upload loop.
-/

/-- Authenticated-user context of `app.core.auth`. -/
structure CurrentUser where
  user_id : String
  is_admin : Bool
  allowed_cash_accounts : List String
deriving DecidableEq, Repr

/-- A route outcome: `ok` with the JSON `expense` payload, or a raised
`HTTPException (status_code, detail)`. -/
inductive ApiResult where
  | ok (expense : Option PendingRec)
  | err (statusCode : Nat) (detail : String)
deriving DecidableEq, Repr

/-- The `expense` payload of an `ok` outcome. -/
def ApiResult.record : ApiResult → Option PendingRec
  | .ok r => r
  | .err _ _ => none

/-- Payload built by `_build_zoho_expense_payload` after the
`v is not None and v != ""` filter (`none` = key dropped). -/
structure ZohoExpensePayload where
  date : Option Date
  account_id : Option String
  paid_through_account_id : Option String
  amount : Option ℚ
  reference_number : Option String
  description : Option String
  vendor_id : Option String
  vendor_name : Option String
deriving DecidableEq, Repr

/-- `_build_zoho_expense_payload` of `routers/pending.py`: built from the
record's canonical fields, never from the cached payload. -/
def build_zoho_expense_payload (rec : PendingRec) : ZohoExpensePayload :=
  let strf : String → Option String := fun s => if s = "" then none else some s
  let vid :=
    match rec.vendor_id with
    | some s => if s = "" then none else some s
    | none => none
  { date := rec.date
    account_id := strf rec.expense_account_id
    paid_through_account_id := strf rec.paid_through_account_id
    amount := rec.amount
    reference_number := strf rec.reference_number
    description := strf rec.description
    vendor_id := vid
    vendor_name := if vid.isSome then none else strf rec.vendor_name }

/-- One journal line of the clearing journal entry. -/
structure JournalLine where
  account_id : String
  debit_or_credit : String
  amount : ℚ
  customer_id : Option String
deriving DecidableEq, Repr

/-- The two-line journal payload for an accrued clearing payment. -/
structure JournalPayload where
  journal_date : Option Date
  reference_number : Option String
  notes : String
  line_items : List JournalLine
deriving DecidableEq, Repr

/-- An upstream interaction made by the approval route. -/
inductive ZCall where
  | postExpense (p : ZohoExpensePayload)
  | postJournal (p : JournalPayload)
  | pushAttachments (journal_id expense_id : String)
deriving DecidableEq, Repr

/-- `_push_journal_attachments`' effect on the store: record the combined
upload errors, or mark the attachments posted. -/
def pushJournalAttachments (st : Store) (expense_id : String)
    (errors : List String) : Store :=
  if errors ≠ [] then
    (update_fields st expense_id
      { zoho_attachment_posted := some false
        zoho_attachment_error :=
          some (some (String.intercalate "; " errors)) }).2
  else
    (update_fields st expense_id
      { zoho_attachment_posted := some true
        zoho_attachment_error := some (some "") }).2

/-- `POST /expenses/approve` (`routers/pending.py`, admin-only route).
Returns the route outcome, the store afterwards, and the upstream calls
made, in order. -/
def routerApprove (st : Store) (payload_expense_id : String) (now : Nat)
    (zohoExpenseResult : Except String ZohoResp)
    (zohoJournalResult : Except String ZohoResp)
    (coaAccruedRow : Option (String × String))
    (attachErrors : List String) :
    ApiResult × Store × List ZCall :=
  let expense_id := pyStrip payload_expense_id
  if expense_id = "" then (.err 400 "expense_id is required", st, [])
  else
    match st.get expense_id with
    | none => (.err 404 "Pending expense not found", st, [])
    | some rec =>
      if rec.status ≠ "pending" then (.ok (some rec), st, [])
      else
        let pending_kind :=
          pyLower (pyStrip (if rec.pending_kind = "" then "expense"
            else rec.pending_kind))
        if pending_kind = "expense" then
          let zp := build_zoho_expense_payload rec
          match zohoExpenseResult with
          | .error e =>
            let st1 := (update_fields st expense_id
              { zoho_posted := some false, zoho_error := some (some e) }).2
            (.err 502 ("Zoho post failed: " ++ e), st1, [.postExpense zp])
          | .ok resp =>
            let a := approve st expense_id now (some resp)
            if a.1 = false then
              (.err 500 "Unable to mark approved", a.2, [.postExpense zp])
            else
              let u := update_fields a.2 expense_id
                { zoho_posted := some true
                  zoho_expense_id := some resp.expense_id
                  zoho_response := some (some resp)
                  zoho_error := some (some "") }
              (.ok u.1, u.2, [.postExpense zp])
        else if pending_kind = "accrued_payment" then
          let source_id := pyStrip rec.source_accrued_expense_id
          let src := if source_id ≠ "" then st.get source_id else none
          match src with
          | none =>
            (.err 400 "Invalid source accrued expense for clearing payment",
             st, [])
          | some s =>
            if s.status ≠ "approved" ∨ pyLower s.expense_type ≠ "accrued" then
              (.err 400 "Invalid source accrued expense for clearing payment",
               st, [])
            else
              match coaAccruedRow with
              | none =>
                (.err 400 "Accrued Expenses account not found in COA CSV",
                 st, [])
              | some row =>
                let accrued_account_id := pyStrip row.1
                let cash_account_id := pyStrip rec.paid_through_account_id
                if cash_account_id = "" then
                  (.err 400 "Paid through account is required", st, [])
                else
                  let amt := rec.amount.getD 0
                  if amt ≤ 0 then
                    (.err 400 "Amount must be > 0", st, [])
                  else
                    let customer :=
                      match rec.vendor_id with
                      | some v => if v = "" then none else some v
                      | none => none
                    let jp : JournalPayload :=
                      { journal_date := rec.date
                        reference_number :=
                          if rec.reference_number = "" then none
                          else some rec.reference_number
                        notes :=
                          if rec.description ≠ "" then rec.description
                          else "Accrued clearing payment for " ++ source_id
                        line_items :=
                          [{ account_id := accrued_account_id
                             debit_or_credit := "debit"
                             amount := amt, customer_id := customer },
                           { account_id := cash_account_id
                             debit_or_credit := "credit"
                             amount := amt, customer_id := customer }] }
                    match zohoJournalResult with
                    | .error e =>
                      let st1 := (update_fields st expense_id
                        { zoho_posted := some false
                          zoho_error := some (some e) }).2
                      (.err 502 ("Zoho journal create failed: " ++ e), st1,
                       [.postJournal jp])
                    | .ok resp =>
                      let journal_id := pyStrip (resp.journal_id.getD "")
                      let a := approve st expense_id now (some resp)
                      if a.1 = false then
                        (.err 500 "Unable to mark approved", a.2,
                         [.postJournal jp])
                      else
                        let u := update_fields a.2 expense_id
                          { zoho_posted := some true
                            zoho_journal_id := some (some journal_id)
                            zoho_response := some (some resp)
                            zoho_error := some (some "") }
                        let st2 := (clear_accrued u.2 source_id now amt
                          cash_account_id
                          (some rec.paid_through_account_name) rec.date
                          (some rec.reference_number) (some expense_id)
                          (some rec.receipts)).2
                        let receipts : List Receipt :=
                          (u.1.map (fun r => r.receipts)).getD []
                        if journal_id ≠ "" ∧ receipts ≠ [] then
                          let st3 :=
                            pushJournalAttachments st2 expense_id attachErrors
                          (.ok (st3.get expense_id), st3,
                           [.postJournal jp,
                            .pushAttachments journal_id expense_id])
                        else (.ok (st2.get expense_id), st2, [.postJournal jp])
        else (.err 400 "Unknown pending_kind", st, [])

/-- `POST /expenses/reject` (`routers/pending.py`, admin-only route). -/
def routerReject (st : Store) (payload_expense_id : String) (now : Nat) :
    ApiResult × Store :=
  let expense_id := pyStrip payload_expense_id
  if expense_id = "" then (.err 400 "expense_id is required", st)
  else
    let r := reject st expense_id now
    if r.1 then (.ok none, r.2)
    else (.err 404 "Pending expense not found", r.2)

/-- `_recompute_accrued_balance` of `routers/expenses.py` (this router-side
variant rounds the clamped balance and maintains `cleared_at`). -/
def recompute_accrued_balance (rec : PendingRec) (now : Nat) : PendingRec :=
  let amt := rec.amount.getD 0
  let cleared_total := clearingTotal rec.clearing
  let bal := round2 (max 0 (amt - cleared_total))
  { rec with
    balance := some bal
    cleared_at := if bal ≤ 0 then some (truthyOr rec.cleared_at now)
                  else none }

/-- `PATCH /{expense_id}` (`routers/expenses.py` `update_expense`). -/
def routerUpdateExpense (st : Store) (expense_id : String) (patch : Patch)
    (user : CurrentUser) (now : Nat) : ApiResult × Store :=
  match st.get expense_id with
  | none => (.err 404 "Expense not found", st)
  | some exp =>
    if ¬ user.is_admin ∧ exp.status ≠ "pending" then
      (.err 403 "Only pending expenses can be edited", st)
    else if ¬ user.is_admin ∧ exp.created_by ≠ some user.user_id then
      (.err 403 "Not your expense", st)
    else
      let p := exp.payload
      let p := match patch.amount with
               | some a => { p with amount := a } | none => p
      let p := match patch.reference_number with
               | some v => { p with reference_number := some v } | none => p
      let p := match patch.paid_through_account_id with
               | some v => { p with paid_through_account_id := some v }
               | none => p
      let p := match patch.expense_account_id with
               | some v => { p with expense_account_id := some v } | none => p
      let p := match patch.date with
               | some v => { p with date := v } | none => p
      let p := match patch.description with
               | some v => { p with description := some v } | none => p
      let p := match patch.vendor_id with
               | some v => { p with vendor_id := v } | none => p
      let p := match patch.vendor_name with
               | some v => { p with vendor_name := some v } | none => p
      let updates := { patch with payload := some p }
      let updates :=
        if pyLower exp.expense_type = "accrued" ∧ patch.amount.isSome then
          let tmp := recompute_accrued_balance (applyPatch exp updates) now
          { updates with balance := some tmp.balance
                         cleared_at := some tmp.cleared_at }
        else updates
      let r := if user.is_admin then update_fields st expense_id updates
               else update st expense_id updates
      match r.1 with
      | none => (.err 400 "Update failed", r.2)
      | some u => (.ok (some u), r.2)

/-- `DELETE /{expense_id}` (`routers/expenses.py` `delete_expense`). -/
def routerDeleteExpense (st : Store) (expense_id : String)
    (user : CurrentUser) : ApiResult × Store :=
  match st.get expense_id with
  | none => (.err 404 "Expense not found", st)
  | some exp =>
    if ¬ user.is_admin ∧ exp.status ≠ "pending" then
      (.err 403 "Only pending expenses can be deleted", st)
    else if ¬ user.is_admin ∧ exp.created_by ≠ some user.user_id then
      (.err 403 "Not your expense", st)
    else
      let d := delete st expense_id
      (.ok none, d.2)

/-- The `ExpenseCreate` request body of `routers/expenses.py`. -/
structure ExpenseCreate where
  expense_type : String := "ordinary"
  vendor_id : Option String := none
  vendor_name : Option String := none
  date : Option Date := none
  reference_number : Option String := none
  expense_account_id : String
  amount : ℚ
  paid_through_account_id : String
  description : Option String := some ""
  tax_id : Option String := none
deriving DecidableEq, Repr

/-- Python falsiness of an optional string. -/
def optFalsy (o : Option String) : Bool :=
  match o with
  | none => true
  | some s => s = ""

/-- `payload.dict()` projected onto the payload keys the store reads. -/
def ExpenseCreate.asPayload (payload : ExpenseCreate) : Payload :=
  { date := payload.date
    vendor_id := payload.vendor_id
    vendor_name := payload.vendor_name
    reference_number := payload.reference_number
    description := payload.description
    expense_account_id := some payload.expense_account_id
    paid_through_account_id := some payload.paid_through_account_id
    amount := some payload.amount }

/-- `POST /create` (`routers/expenses.py` `create_expense`); `today` stands
for `date.today()` and `coaAccruedRow` for the COA lookup. -/
def routerCreateExpense (st : Store) (payload : ExpenseCreate)
    (user : CurrentUser) (coaAccruedRow : Option (String × String))
    (today : Date) (now : Nat) : ApiResult × Store :=
  let exp_type0 := pyLower (pyStrip (if payload.expense_type = "" then "ordinary"
                     else payload.expense_type))
  let exp_type := if exp_type0 = "ordinary" ∨ exp_type0 = "accrued" then
                    exp_type0
                  else "ordinary"
  if exp_type = "accrued" ∧ coaAccruedRow = none then
    (.err 400 "Accrued Expenses account not found in COA", st)
  else
    let paid_id :=
      if exp_type = "accrued" then pyStrip ((coaAccruedRow.map Prod.fst).getD "")
      else payload.paid_through_account_id
    let paid_name :=
      if exp_type = "accrued" then
        match coaAccruedRow with
        | some row => if row.2 = "" then "Accrued Expenses" else row.2
        | none => "Accrued Expenses"
      else ""
    if ¬ user.is_admin ∧ exp_type ≠ "accrued" ∧
        paid_id ∉ user.allowed_cash_accounts then
      (.err 403 "You are not allowed to use this paid-through account", st)
    else if payload.expense_account_id = "" then
      (.err 400 "Expense account is required", st)
    else if paid_id = "" then
      (.err 400 "Paid through is required", st)
    else if payload.amount ≤ 0 then
      (.err 400 "Amount must be > 0", st)
    else if optFalsy payload.vendor_id ∧ optFalsy payload.vendor_name then
      (.err 400 "Select a vendor or enter vendor name", st)
    else
      let record : InputRecord :=
        { status := "pending"
          expense_type := exp_type
          date := payload.date <|> some today
          vendor_id := payload.vendor_id
          vendor_name := payload.vendor_name.getD ""
          reference_number := payload.reference_number.getD ""
          expense_account_id := payload.expense_account_id
          paid_through_account_id := paid_id
          paid_through_account_name := paid_name
          amount := some payload.amount
          description := payload.description.getD ""
          created_by := some user.user_id
          payload := some payload.asPayload }
      let r := add_pending now record st
      (.ok (some r.1), r.2)

/-! Shared helper lemmas. -/

theorem Store.get_erase_self (st : Store) (k : String) :
    (st.erase k).get k = none := by
  unfold Store.erase Store.get
  induction st with
  | nil => simp
  | cons kv rest ih =>
    by_cases hk : kv.1 = k
    · simp [List.filter, hk, ih]
    · simp [List.filter, hk, List.find?, ih]

theorem round2_cent {q : ℚ} (h : Cent q) : round2 q = q := by
  obtain ⟨n, rfl⟩ := h
  unfold round2
  have h100 : ((n : ℚ) / 100) * 100 = (n : ℚ) := by
    field_simp
  rw [h100, round_intCast]

theorem Cent.sub {a b : ℚ} (ha : Cent a) (hb : Cent b) : Cent (a - b) := by
  obtain ⟨n, rfl⟩ := ha
  obtain ⟨m, rfl⟩ := hb
  exact ⟨n - m, by push_cast; ring⟩

theorem Cent.add {a b : ℚ} (ha : Cent a) (hb : Cent b) : Cent (a + b) := by
  obtain ⟨n, rfl⟩ := ha
  obtain ⟨m, rfl⟩ := hb
  exact ⟨n + m, by push_cast; ring⟩

theorem Cent.zero : Cent 0 := ⟨0, by norm_num⟩

/-- All amounts of a clearing list are whole cents. -/
def CentClearing (l : List ClearingEntry) : Prop :=
  ∀ c ∈ l, Cent (c.amount.getD 0)

theorem cent_clearingTotal {l : List ClearingEntry} (h : CentClearing l) :
    Cent (clearingTotal l) := by
  induction l with
  | nil => exact Cent.zero
  | cons c rest ih =>
    have hc : Cent (c.amount.getD 0) := h c (by simp)
    have hrest : Cent (clearingTotal rest) :=
      ih (fun x hx => h x (by simp [hx]))
    simpa [clearingTotal] using hc.add hrest

/-- The balance the spec prescribes: `max(0, amount - sum(clearing))`. -/
def balanceSpec (r : PendingRec) : ℚ :=
  max 0 (r.amount.getD 0 - clearingTotal r.clearing)

theorem recompute_eq_of_accrued (r0 : PendingRec)
    (h : pyLower r0.expense_type = "accrued") :
    recompute_accrued_balance_if_needed r0
      = { r0 with
          balance := some (max (r0.amount.getD 0 - clearingTotal r0.clearing) 0) } := by
  unfold recompute_accrued_balance_if_needed
  rw [if_neg (by simp [h])]

theorem recompute_status (r0 : PendingRec) :
    (recompute_accrued_balance_if_needed r0).status = r0.status := by
  unfold recompute_accrued_balance_if_needed
  split <;> rfl

theorem recompute_zoho_posted (r0 : PendingRec) :
    (recompute_accrued_balance_if_needed r0).zoho_posted = r0.zoho_posted := by
  unfold recompute_accrued_balance_if_needed
  split <;> rfl

theorem recompute_zoho_error (r0 : PendingRec) :
    (recompute_accrued_balance_if_needed r0).zoho_error = r0.zoho_error := by
  unfold recompute_accrued_balance_if_needed
  split <;> rfl

theorem recompute_expense_type (r0 : PendingRec) :
    (recompute_accrued_balance_if_needed r0).expense_type
      = r0.expense_type := by
  unfold recompute_accrued_balance_if_needed
  split <;> rfl

theorem recompute_amount (r0 : PendingRec) :
    (recompute_accrued_balance_if_needed r0).amount = r0.amount := by
  unfold recompute_accrued_balance_if_needed
  split <;> rfl

theorem recompute_clearing (r0 : PendingRec) :
    (recompute_accrued_balance_if_needed r0).clearing = r0.clearing := by
  unfold recompute_accrued_balance_if_needed
  split <;> rfl

/-- Every failure guard of `clear_accrued` returns `None` and leaves the
store untouched. -/
theorem clear_accrued_fails (st : Store) (expense_id : String) (now : Nat)
    (amount : ℚ) (ptid : String) (ptname : Option String)
    (cdate : Option Date) (ref spid : Option String)
    (rcts : Option (List Receipt))
    (h : amount ≤ 0 ∨ st.get expense_id = none ∨
         ∃ rec, st.get expense_id = some rec ∧
           (rec.status ≠ "approved" ∨ pyLower rec.expense_type ≠ "accrued")) :
    clear_accrued st expense_id now amount ptid ptname cdate ref spid rcts
      = (none, st) := by
  by_cases hamt : amount ≤ 0
  · simp [clear_accrued, hamt]
  · rcases h with h | h | ⟨rec, hget, hrec⟩
    · exact absurd h hamt
    · simp [clear_accrued, hamt, h]
    · rcases hrec with hr | hr
      · simp [clear_accrued, hamt, hget, hr]
      · simp [clear_accrued, hamt, hget, hr]

/-- Approval on a record whose status is not `pending` is the idempotent
early return: no store change, no upstream call. -/
theorem routerApprove_not_pending (st : Store) (pid : String) (now : Nat)
    (ze zj : Except String ZohoResp) (coa : Option (String × String))
    (ae : List String) (rec : PendingRec)
    (hne : pyStrip pid ≠ "") (hget : st.get (pyStrip pid) = some rec)
    (hstat : rec.status ≠ "pending") :
    routerApprove st pid now ze zj coa ae = (.ok (some rec), st, []) := by
  simp [routerApprove, hne, hget, hstat]

/-! Claim theorems. -/

/-- C3: invoking the approval route on a record whose status is not
`pending` (in particular an already-approved record) is an idempotent
no-op: no upstream call is made, the store is left unchanged, and the
route returns success carrying the current record. -/
theorem c3_approve_not_pending_noop (st : Store) (pid : String) (now : Nat)
    (ze zj : Except String ZohoResp) (coa : Option (String × String))
    (ae : List String) (rec : PendingRec)
    (hne : pyStrip pid ≠ "") (hget : st.get (pyStrip pid) = some rec)
    (hstat : rec.status ≠ "pending") :
    routerApprove st pid now ze zj coa ae = (.ok (some rec), st, []) :=
  routerApprove_not_pending st pid now ze zj coa ae rec hne hget hstat

def c3rec : PendingRec :=
  { emptyRec with expense_id := "a1", status := "approved" }

theorem c3_approve_not_pending_noop_witness :
    routerApprove [("a1", c3rec)] "a1" 7 (.error "boom") (.error "boom")
        none []
      = (.ok (some c3rec), [("a1", c3rec)], []) :=
  c3_approve_not_pending_noop [("a1", c3rec)] "a1" 7 (.error "boom")
    (.error "boom") none [] c3rec (by decide) (by rfl) (by decide)

/-- C5: `clear_accrued` on a missing record, a record whose status is not
`approved`, a record whose `expense_type` is not `accrued`, or with a
non-positive clearing amount, returns `None` and leaves the ledger state
completely unchanged. -/
theorem c5_clear_accrued_failure_unchanged (st : Store)
    (expense_id : String) (now : Nat) (amount : ℚ) (ptid : String)
    (ptname : Option String) (cdate : Option Date) (ref spid : Option String)
    (rcts : Option (List Receipt))
    (h : amount ≤ 0 ∨ st.get expense_id = none ∨
         ∃ rec, st.get expense_id = some rec ∧
           (rec.status ≠ "approved" ∨ pyLower rec.expense_type ≠ "accrued")) :
    clear_accrued st expense_id now amount ptid ptname cdate ref spid rcts
      = (none, st) :=
  clear_accrued_fails st expense_id now amount ptid ptname cdate ref spid
    rcts h

def c5rec : PendingRec :=
  { emptyRec with
    expense_id := "p1", status := "pending", expense_type := "accrued"
    amount := some 10, balance := some 10 }

theorem c5_clear_accrued_failure_unchanged_witness :
    clear_accrued [] "x" 3 25 "cash" none none none none none
        = (none, []) ∧
    clear_accrued [("p1", c5rec)] "p1" 3 25 "cash" none none none none none
        = (none, [("p1", c5rec)]) ∧
    clear_accrued [("p1", c5rec)] "p1" 3 (-2) "cash" none none none none
        none
      = (none, [("p1", c5rec)]) :=
  ⟨c5_clear_accrued_failure_unchanged [] "x" 3 25 "cash" none none none
      none none (Or.inr (Or.inl rfl)),
   c5_clear_accrued_failure_unchanged [("p1", c5rec)] "p1" 3 25 "cash"
      none none none none none
      (Or.inr (Or.inr ⟨c5rec, rfl, Or.inl (by decide)⟩)),
   c5_clear_accrued_failure_unchanged [("p1", c5rec)] "p1" 3 (-2) "cash"
      none none none none none (Or.inl (by norm_num))⟩

/-- C9: `add_pending` with an `expense_id` already present silently
replaces the stored record in its entirety: the new stored record is
computed from the input alone (the previous record, its status, clearing
history and upstream linkage included, is lost), every other record is
untouched, and the call returns the stored record, reporting success. -/
theorem c9_add_pending_overwrites (st : Store) (now : Nat)
    (input : InputRecord) (old : PendingRec)
    (hid : input.expense_id ≠ "")
    (hold : st.get input.expense_id = some old) :
    (add_pending now input st).2.get input.expense_id
        = some (add_pending now input st).1 ∧
    (add_pending now input st).1 = (add_pending now input []).1 ∧
    ∀ k, k ≠ input.expense_id →
      (add_pending now input st).2.get k = st.get k := by
  refine ⟨?_, rfl, fun k hk => ?_⟩
  · simp [add_pending, hid, Store.get_set_self]
  · simp [add_pending, hid, Store.get_set_ne st _ k _ hk]

def c9old : PendingRec :=
  { emptyRec with
    expense_id := "e9", status := "approved"
    zoho_expense_id := some "z1"
    clearing := [{ clearing_id := "c1", amount := some 4
                   paid_through_account_id := "cash"
                   paid_through_account_name := "", date := none
                   reference_number := "", source_payment_id := ""
                   receipts := [], created_at := 1 }] }

def c9input : InputRecord :=
  { expense_id := "e9", amount := some 3, vendor_name := "v" }

theorem add_pending_amount (now : Nat) (input : InputRecord) (st : Store) :
    (add_pending now input st).1.amount = input.amount := rfl

theorem exactBalance_spec (r2 : PendingRec)
    (hb : r2.balance
        = some (max (r2.amount.getD 0 - clearingTotal r2.clearing) 0)) :
    r2.balance = some (balanceSpec r2) := by
  rw [hb, balanceSpec, max_comm]

theorem roundedBalance_spec (r2 : PendingRec)
    (hb : r2.balance
        = some (max 0 (round2 (r2.amount.getD 0 - clearingTotal r2.clearing))))
    (hcent : Cent (r2.amount.getD 0)) (hcl : CentClearing r2.clearing) :
    r2.balance = some (balanceSpec r2) := by
  rw [hb, balanceSpec, round2_cent (hcent.sub (cent_clearingTotal hcl))]

theorem recompute_balance_spec (r0 : PendingRec)
    (hacc : pyLower
        (recompute_accrued_balance_if_needed r0).expense_type = "accrued") :
    (recompute_accrued_balance_if_needed r0).balance
      = some (balanceSpec (recompute_accrued_balance_if_needed r0)) := by
  have h0 : pyLower r0.expense_type = "accrued" := by
    rw [recompute_expense_type] at hacc; exact hacc
  apply exactBalance_spec
  rw [recompute_amount, recompute_clearing, recompute_eq_of_accrued r0 h0]

def c1input : InputRecord :=
  { expense_id := "x1", expense_type := "accrued", amount := some 100
    balance := some 50 }

/-- C1 (counterexample): the create operation `add_pending` keeps a
caller-supplied `balance` as is and never recomputes it: the stored accrued
record has `balance = 50` although `max(0, amount - sum(clearing)) = 100`,
so the invariant does not hold after this mutating operation. -/
theorem c1_balance_invariant_counterexample :
    ((add_pending 1 c1input []).1).expense_type = "accrued" ∧
    ((add_pending 1 c1input []).2.get "x1").map (fun r => r.balance)
        = some (some (50 : ℚ)) ∧
    balanceSpec (add_pending 1 c1input []).1 = 100 ∧
    (50 : ℚ) ≠ 100 := by
  refine ⟨rfl, rfl, ?_, by norm_num⟩
  rw [balanceSpec, add_pending_amount]
  show max 0 ((some (100 : ℚ)).getD 0 - clearingTotal []) = 100
  norm_num [clearingTotal]

/-- C1 (amended): after `update` and `update_fields` the balance of the
touched accrued record equals `max(0, amount − sum(clearing))` exactly;
after `clear_accrued`, `update_clearing` and `delete_clearing` the same
holds whenever the amounts involved are whole cents (these three round the
difference to two decimals before clamping); after the create operation
`add_pending` it holds only when the input supplies no explicit balance, no
clearing entries, and a present nonnegative amount (counterexample
otherwise).  Each operation writes only the touched record. -/
theorem c1_balance_invariant_amended :
    (∀ st id f r' st2, update st id f = (some r', st2) →
        pyLower r'.expense_type = "accrued" →
        r'.balance = some (balanceSpec r') ∧ st2.get id = some r') ∧
    (∀ st id f r' st2, update_fields st id f = (some r', st2) →
        pyLower r'.expense_type = "accrued" →
        r'.balance = some (balanceSpec r') ∧ st2.get id = some r') ∧
    (∀ st id now amount ptid ptname cdate ref spid rcts r' st2,
        clear_accrued st id now amount ptid ptname cdate ref spid rcts
            = (some r', st2) →
        Cent (r'.amount.getD 0) → CentClearing r'.clearing →
        r'.balance = some (balanceSpec r') ∧ st2.get id = some r') ∧
    (∀ st id cid cp now c st2,
        update_clearing st id cid cp now = (some c, st2) →
        ∀ r', st2.get id = some r' →
        Cent (r'.amount.getD 0) → CentClearing r'.clearing →
        r'.balance = some (balanceSpec r')) ∧
    (∀ st id cid now st2, delete_clearing st id cid now = (true, st2) →
        ∀ r', st2.get id = some r' →
        Cent (r'.amount.getD 0) → CentClearing r'.clearing →
        r'.balance = some (balanceSpec r')) ∧
    (∀ now input st, input.balance = none → input.clearing = [] →
        (∃ a, input.amount = some a ∧ 0 ≤ a) →
        (add_pending now input st).1.expense_type = "accrued" →
        (add_pending now input st).1.balance
            = some (balanceSpec (add_pending now input st).1)) := by
  refine ⟨?_, ?_, ?_, ?_, ?_, ?_⟩
  · intro st id f r' st2 h hacc
    unfold update at h
    split at h
    · exact absurd h (by simp)
    · split at h
      · exact absurd h (by simp)
      · simp only [Prod.mk.injEq, Option.some.injEq] at h
        obtain ⟨h1, h2⟩ := h
        subst h1; subst h2
        exact ⟨recompute_balance_spec _ hacc, Store.get_set_self st id _⟩
  · intro st id f r' st2 h hacc
    unfold update_fields at h
    split at h
    · exact absurd h (by simp)
    · simp only [Prod.mk.injEq, Option.some.injEq] at h
      obtain ⟨h1, h2⟩ := h
      subst h1; subst h2
      exact ⟨recompute_balance_spec _ hacc, Store.get_set_self st id _⟩
  · intro st id now amount ptid ptname cdate ref spid rcts r' st2 h hcent hcl
    unfold clear_accrued at h
    try dsimp only at h
    repeat' split at h
    all_goals simp only [Prod.mk.injEq, Option.some.injEq, reduceCtorEq,
      false_and] at h
    all_goals obtain ⟨h1, h2⟩ := h
    all_goals subst h1
    all_goals subst h2
    all_goals
      exact ⟨roundedBalance_spec _ rfl hcent hcl, Store.get_set_self _ _ _⟩
  · intro st id cid cp now c st2 h r' hget2 hcent hcl
    unfold update_clearing at h
    try dsimp only at h
    repeat' split at h
    all_goals simp only [Prod.mk.injEq, Option.some.injEq, reduceCtorEq,
      false_and] at h
    all_goals obtain ⟨h1, h2⟩ := h
    all_goals subst h2
    all_goals rw [Store.get_set_self] at hget2
    all_goals simp only [Option.some.injEq] at hget2
    all_goals subst hget2
    all_goals exact roundedBalance_spec _ rfl hcent hcl
  · intro st id cid now st2 h r' hget2 hcent hcl
    unfold delete_clearing at h
    try dsimp only at h
    repeat' split at h
    all_goals simp only [Prod.mk.injEq, reduceCtorEq, false_and,
      true_and] at h
    all_goals subst h
    all_goals rw [Store.get_set_self] at hget2
    all_goals simp only [Option.some.injEq] at hget2
    all_goals subst hget2
    all_goals exact roundedBalance_spec _ rfl hcent hcl
  · intro now input st hb0 hc0 hex hacc
    obtain ⟨a, ha, ha0⟩ := hex
    have hbal : (add_pending now input st).1.balance = input.amount := by
      show (if ((add_pending now input st).1.expense_type = "accrued" ∧
          input.balance = none) then input.amount else input.balance)
        = input.amount
      rw [if_pos ⟨hacc, hb0⟩]
    have hclr : (add_pending now input st).1.clearing = [] := hc0
    rw [hbal, ha, balanceSpec, add_pending_amount, ha, hclr]
    have ht : clearingTotal [] = 0 := rfl
    rw [ht, sub_zero]
    show some a = some (max 0 ((a : ℚ)))
    rw [max_eq_right ha0]

def c1urec : PendingRec :=
  { emptyRec with
    expense_id := "u1", status := "pending", expense_type := "accrued"
    amount := some 100 }

def c1arec : PendingRec :=
  { emptyRec with
    expense_id := "a1", status := "approved", expense_type := "accrued"
    amount := some 100, balance := some 100 }

def c1upd : Option PendingRec × Store :=
  update [("u1", c1urec)] "u1" { amount := some (some 80) }

def c1clr : Option PendingRec × Store :=
  clear_accrued [("a1", c1arec)] "a1" 7 40 "cash" none none none none none

def c1entry : ClearingEntry :=
  { clearing_id := "7000", amount := some 40
    paid_through_account_id := "cash", paid_through_account_name := ""
    date := none, reference_number := "", source_payment_id := ""
    receipts := [], created_at := 7 }

def c1newinput : InputRecord :=
  { expense_id := "y1", expense_type := "accrued", amount := some 100 }

theorem c1_balance_invariant_amended_witness :
    ((c1upd.1.getD emptyRec).balance
        = some (balanceSpec (c1upd.1.getD emptyRec))) ∧
    ((c1clr.1.getD emptyRec).balance
        = some (balanceSpec (c1clr.1.getD emptyRec))) ∧
    ((add_pending 3 c1newinput []).1.balance
        = some (balanceSpec (add_pending 3 c1newinput []).1)) :=
  ⟨(c1_balance_invariant_amended.1 [("u1", c1urec)] "u1"
      { amount := some (some 80) } (c1upd.1.getD emptyRec) c1upd.2
      (by rfl) (by rfl)).1,
   (c1_balance_invariant_amended.2.2.1 [("a1", c1arec)] "a1" 7 40 "cash"
      none none none none none (c1clr.1.getD emptyRec) c1clr.2 (by rfl)
      ⟨10000, by show (100 : ℚ) = ((10000 : ℤ) : ℚ) / 100; norm_num⟩
      (fun c hc => by
        rw [show (c1clr.1.getD emptyRec).clearing = [c1entry] from rfl,
          List.mem_singleton] at hc
        rw [hc]
        exact ⟨4000, by show (40 : ℚ) = ((4000 : ℤ) : ℚ) / 100; norm_num⟩)).1,
   c1_balance_invariant_amended.2.2.2.2.2 3 c1newinput [] rfl rfl
      ⟨100, rfl, by norm_num⟩ rfl⟩

def c7input : InputRecord := { expense_id := "n1", amount := some (-5 : ℚ) }

/-- C7 (counterexample): `add_pending` is itself a creation operation but
performs no amount validation: called directly it stores a record whose
amount is `-5`, which is not positive. -/
theorem c7_amount_positive_counterexample :
    ((add_pending 1 c7input []).2.get "n1").map (fun r => r.amount)
        = some (some (-5 : ℚ)) ∧
    ¬ (0 : ℚ) < -5 := by
  refine ⟨rfl, by norm_num⟩

set_option maxHeartbeats 1600000 in
/-- C7 (amended): every record stored through the `create_expense` route
has `amount > 0` — the route rejects non-positive amounts before storing;
the store-level `add_pending` itself does not validate (counterexample). -/
theorem c7_create_expense_amount_positive
    (st : Store) (payload : ExpenseCreate) (user : CurrentUser)
    (coa : Option (String × String)) (today : Date) (now : Nat)
    (r : PendingRec) (st2 : Store)
    (h : routerCreateExpense st payload user coa today now
          = (.ok (some r), st2)) :
    r.amount = some payload.amount ∧ 0 < payload.amount := by
  unfold routerCreateExpense at h
  dsimp only at h
  repeat' split at h
  all_goals try simp only [Prod.mk.injEq, ApiResult.ok.injEq,
    Option.some.injEq] at h
  all_goals try exact ApiResult.noConfusion h.1
  all_goals refine ⟨by rw [← h.1]; rfl, not_le.mp (by assumption)⟩

def c7pay : ExpenseCreate :=
  { expense_account_id := "ea", amount := 7, paid_through_account_id := "pt"
    vendor_name := some "v" }

def c7user : CurrentUser :=
  { user_id := "u", is_admin := true, allowed_cash_accounts := [] }

def c7result : ApiResult × Store :=
  routerCreateExpense [] c7pay c7user none ⟨2025, 10, 1⟩ 1

theorem c7_create_expense_amount_positive_witness :
    (c7result.1.record.getD emptyRec).amount = some c7pay.amount ∧
    (0 : ℚ) < c7pay.amount :=
  c7_create_expense_amount_positive [] c7pay c7user none ⟨2025, 10, 1⟩ 1
    (c7result.1.record.getD emptyRec) c7result.2 (by rfl)

def c2rec : PendingRec :=
  { emptyRec with expense_id := "r1", status := "rejected" }

/-- C2 (counterexample): the claim includes the store-level `approve`
operation, but `PendingStore.approve` sets `status = "approved"`
unconditionally — applied to a rejected record it moves it to
`approved`. -/
theorem c2_rejected_terminal_counterexample :
    c2rec.status = "rejected" ∧
    ((approve [("r1", c2rec)] "r1" 5 none).2.get "r1").map
        (fun r => r.status)
      = some "approved" := by
  exact ⟨rfl, rfl⟩

/-- C2 (amended): a rejected record is terminal for the approval and
rejection routes and for the store operations `update`, `delete`,
`clear_accrued`, `update_clearing`, `delete_clearing` and `add_receipt`:
none of them moves it to `pending` or `approved`.  The store-level
`approve` (reached by the route only after its pending check) and an
explicit `status` patch through `update_fields` / `add_pending` are the
exceptions the counterexample exhibits. -/
theorem c2_rejected_terminal_amended
    (st : Store) (id pid : String) (rec : PendingRec) (now : Nat)
    (ze zj : Except String ZohoResp) (coa : Option (String × String))
    (ae : List String) (p : Patch) (cp : ClearingPatch)
    (cid fn url : String) (amount : ℚ) (ptid : String)
    (hget : st.get id = some rec) (hstat : rec.status = "rejected")
    (hpid : pyStrip pid = id) (hne : id ≠ "") :
    routerApprove st pid now ze zj coa ae = (.ok (some rec), st, []) ∧
    update st id p = (none, st) ∧
    clear_accrued st id now amount ptid none none none none none
        = (none, st) ∧
    ((routerReject st pid now).2.get id).map (fun r => r.status)
        = some "rejected" ∧
    (∀ r2, (add_receipt st id fn url now).2.get id = some r2 →
        r2.status = "rejected") ∧
    (∀ r2, (update_clearing st id cid cp now).2.get id = some r2 →
        r2.status = "rejected") ∧
    (∀ r2, (delete_clearing st id cid now).2.get id = some r2 →
        r2.status = "rejected") ∧
    (delete st id).2.get id = none := by
  have hnp : rec.status ≠ "pending" := by rw [hstat]; decide
  have hna : rec.status ≠ "approved" := by rw [hstat]; decide
  refine ⟨?_, ?_, ?_, ?_, ?_, ?_, ?_, ?_⟩
  · exact routerApprove_not_pending st pid now ze zj coa ae rec
      (by rw [hpid]; exact hne) (by rw [hpid]; exact hget) hnp
  · simp [update, hget, hnp]
  · exact clear_accrued_fails st id now amount ptid none none none none
      none (Or.inr (Or.inr ⟨rec, hget, Or.inl hna⟩))
  · have hr : reject st id now
        = (true, st.set id { rec with status := "rejected"
                                      rejected_at := some now }) := by
      simp [reject, hget]
    simp [routerReject, hpid, hne, hr, Store.get_set_self]
  · intro r2 h
    simp only [add_receipt, hget, Store.get_set_self, Option.some.injEq] at h
    rw [← h]
    exact hstat
  · intro r2 h
    unfold update_clearing at h
    rw [hget] at h
    simp only at h
    split at h
    · rw [hget] at h
      exact (Option.some.injEq _ _ ▸ h) ▸ hstat
    · split at h
      · rw [hget] at h
        exact (Option.some.injEq _ _ ▸ h) ▸ hstat
      · rw [Store.get_set_self] at h
        rw [← Option.some.injEq _ _ |>.mp h]
        exact hstat
  · intro r2 h
    unfold delete_clearing at h
    rw [hget] at h
    simp only at h
    split at h
    · rw [hget] at h
      exact (Option.some.injEq _ _ ▸ h) ▸ hstat
    · split at h
      · rw [hget] at h
        exact (Option.some.injEq _ _ ▸ h) ▸ hstat
      · rw [Store.get_set_self] at h
        rw [← Option.some.injEq _ _ |>.mp h]
        exact hstat
  · simp [delete, hget, Store.get_erase_self]

theorem c2_rejected_terminal_amended_witness :
    routerApprove [("r1", c2rec)] "r1" 9 (.error "x") (.error "x") none []
        = (.ok (some c2rec), [("r1", c2rec)], []) ∧
    update [("r1", c2rec)] "r1" {} = (none, [("r1", c2rec)]) ∧
    ((routerReject [("r1", c2rec)] "r1" 9).2.get "r1").map
        (fun r => r.status)
      = some "rejected" ∧
    (delete [("r1", c2rec)] "r1").2.get "r1" = none :=
  ⟨(c2_rejected_terminal_amended [("r1", c2rec)] "r1" "r1" c2rec 9
      (.error "x") (.error "x") none [] {} {} "c" "f" "u" 1 "acct"
      rfl rfl (by rfl) (by decide)).1,
   (c2_rejected_terminal_amended [("r1", c2rec)] "r1" "r1" c2rec 9
      (.error "x") (.error "x") none [] {} {} "c" "f" "u" 1 "acct"
      rfl rfl (by rfl) (by decide)).2.1,
   (c2_rejected_terminal_amended [("r1", c2rec)] "r1" "r1" c2rec 9
      (.error "x") (.error "x") none [] {} {} "c" "f" "u" 1 "acct"
      rfl rfl (by rfl) (by decide)).2.2.2.1,
   (c2_rejected_terminal_amended [("r1", c2rec)] "r1" "r1" c2rec 9
      (.error "x") (.error "x") none [] {} {} "c" "f" "u" 1 "acct"
      rfl rfl (by rfl) (by decide)).2.2.2.2.2.2.2⟩

theorem c9_add_pending_overwrites_witness :
    (add_pending 2 c9input [("e9", c9old)]).2.get "e9"
        = some (add_pending 2 c9input [("e9", c9old)]).1 ∧
    (add_pending 2 c9input [("e9", c9old)]).2.get "other"
        = Store.get [("e9", c9old)] "other" :=
  ⟨(c9_add_pending_overwrites [("e9", c9old)] 2 c9input c9old (by decide)
      (by rfl)).1,
   (c9_add_pending_overwrites [("e9", c9old)] 2 c9input c9old (by decide)
      (by rfl)).2.2 "other" (by decide)⟩

/-- C6: for a non-privileged actor, `update_expense` and `delete_expense`
on a record the actor did not create, or whose status is not `pending`,
always fail with a 403 validation error and leave the ledger (hence the
record) completely unchanged. -/
theorem c6_nonadmin_update_delete_guard
    (st : Store) (id : String) (patch : Patch) (user : CurrentUser)
    (now : Nat) (rec : PendingRec)
    (hadmin : user.is_admin = false) (hget : st.get id = some rec)
    (h : rec.status ≠ "pending" ∨ rec.created_by ≠ some user.user_id) :
    (∃ d, routerUpdateExpense st id patch user now = (.err 403 d, st)) ∧
    (∃ d, routerDeleteExpense st id user = (.err 403 d, st)) := by
  by_cases hs : rec.status = "pending"
  · have hcb : rec.created_by ≠ some user.user_id :=
      h.resolve_left (by simp [hs])
    constructor
    · exact ⟨"Not your expense",
        by simp [routerUpdateExpense, hget, hadmin, hs, hcb]⟩
    · exact ⟨"Not your expense",
        by simp [routerDeleteExpense, hget, hadmin, hs, hcb]⟩
  · constructor
    · exact ⟨"Only pending expenses can be edited",
        by simp [routerUpdateExpense, hget, hadmin, hs]⟩
    · exact ⟨"Only pending expenses can be deleted",
        by simp [routerDeleteExpense, hget, hadmin, hs]⟩

def c6rec : PendingRec :=
  { emptyRec with
    expense_id := "e6", status := "approved", created_by := some "u" }

def c6user : CurrentUser :=
  { user_id := "u", is_admin := false, allowed_cash_accounts := [] }

theorem c6_nonadmin_update_delete_guard_witness :
    (∃ d, routerUpdateExpense [("e6", c6rec)] "e6" {} c6user 1
        = (.err 403 d, [("e6", c6rec)])) ∧
    (∃ d, routerDeleteExpense [("e6", c6rec)] "e6" c6user
        = (.err 403 d, [("e6", c6rec)])) :=
  c6_nonadmin_update_delete_guard [("e6", c6rec)] "e6" {} c6user 1 c6rec
    rfl rfl (Or.inl (by decide))

theorem mem_list_pending (st : Store) (r : PendingRec) :
    r ∈ list_pending st ↔ r ∈ st.values ∧ r.status = "pending" := by
  unfold list_pending
  rw [mem_sortRecsBy, List.mem_filter]
  simp

/-- C4: when the upstream POST fails while approving a pending
expense-kind record, the route persists `zoho_posted = false` and
`zoho_error = <reason>`, leaves the status `pending`, raises 502
Bad Gateway, and the record still appears in `list_pending`. -/
theorem c4_upstream_failure_keeps_pending
    (st : Store) (pid : String) (rec : PendingRec) (now : Nat) (e : String)
    (zj : Except String ZohoResp) (coa : Option (String × String))
    (ae : List String)
    (hne : pyStrip pid ≠ "") (hget : st.get (pyStrip pid) = some rec)
    (hstat : rec.status = "pending")
    (hkind : pyLower (pyStrip (if rec.pending_kind = "" then "expense"
        else rec.pending_kind)) = "expense") :
    ∃ r', routerApprove st pid now (.error e) zj coa ae
        = (.err 502 ("Zoho post failed: " ++ e), st.set (pyStrip pid) r',
           [.postExpense (build_zoho_expense_payload rec)]) ∧
      r'.status = "pending" ∧ r'.zoho_posted = false ∧
      r'.zoho_error = some e ∧
      r' ∈ list_pending (st.set (pyStrip pid) r') := by
  refine ⟨recompute_accrued_balance_if_needed (sync_payload_from_record
    (applyPatch rec { zoho_posted := some false
                      zoho_error := some (some e) })), ?_, ?_, ?_, ?_, ?_⟩
  · simp [routerApprove, hne, hget, hstat, hkind, update_fields]
  · rw [recompute_status]; exact hstat
  · rw [recompute_zoho_posted]; rfl
  · rw [recompute_zoho_error]; rfl
  · rw [mem_list_pending]
    exact ⟨Store.set_mem_values _ _ _, by rw [recompute_status]; exact hstat⟩

def c4rec : PendingRec :=
  { emptyRec with
    expense_id := "p4", status := "pending", pending_kind := "expense"
    amount := some 50 }

theorem c4_upstream_failure_keeps_pending_witness :
    ∃ r', routerApprove [("p4", c4rec)] "p4" 5 (.error "boom")
          (.error "boom") none []
        = (.err 502 ("Zoho post failed: " ++ "boom"),
           Store.set [("p4", c4rec)] (pyStrip "p4") r',
           [.postExpense (build_zoho_expense_payload c4rec)]) ∧
      r'.status = "pending" ∧ r'.zoho_posted = false ∧
      r'.zoho_error = some "boom" ∧
      r' ∈ list_pending (Store.set [("p4", c4rec)] (pyStrip "p4") r') :=
  c4_upstream_failure_keeps_pending [("p4", c4rec)] "p4" c4rec 5 "boom"
    (.error "boom") none [] (by decide) (by rfl) rfl (by rfl)

theorem opt_ite_isSome_iff (b : Prop) [Decidable b] (t : Nat) :
    ((if b then some t else (none : Option Nat)).isSome = true) ↔ b := by
  by_cases hb : b <;> simp [hb]

/-- C10: after every successful `clear_accrued`, `update_clearing` or
`delete_clearing`, the stored record's `cleared_at` is non-null exactly
when the recomputed balance is ≤ 0. -/
theorem c10_cleared_at_iff_balance_nonpositive :
    (∀ st id now amount ptid ptname cdate ref spid rcts r' st2,
        clear_accrued st id now amount ptid ptname cdate ref spid rcts
            = (some r', st2) →
        st2.get id = some r' ∧
        ∃ v, r'.balance = some v ∧ (r'.cleared_at.isSome ↔ v ≤ 0)) ∧
    (∀ st id cid cp now c st2,
        update_clearing st id cid cp now = (some c, st2) →
        ∃ r' v, st2.get id = some r' ∧ r'.balance = some v ∧
          (r'.cleared_at.isSome ↔ v ≤ 0)) ∧
    (∀ st id cid now st2, delete_clearing st id cid now = (true, st2) →
        ∃ r' v, st2.get id = some r' ∧ r'.balance = some v ∧
          (r'.cleared_at.isSome ↔ v ≤ 0)) := by
  refine ⟨?_, ?_, ?_⟩
  · intro st id now amount ptid ptname cdate ref spid rcts r' st2 h
    unfold clear_accrued at h
    try dsimp only at h
    repeat' split at h
    all_goals simp only [Prod.mk.injEq, Option.some.injEq, reduceCtorEq,
      false_and] at h
    all_goals obtain ⟨h1, h2⟩ := h
    all_goals subst h1
    all_goals subst h2
    all_goals refine ⟨Store.get_set_self _ _ _, ?_⟩
    all_goals unfold clearAccruedRecord
    all_goals dsimp only
    all_goals exact ⟨_, rfl, opt_ite_isSome_iff _ _⟩
  · intro st id cid cp now c st2 h
    unfold update_clearing at h
    try dsimp only at h
    repeat' split at h
    all_goals simp only [Prod.mk.injEq, Option.some.injEq, reduceCtorEq,
      false_and] at h
    all_goals obtain ⟨h1, h2⟩ := h
    all_goals subst h2
    all_goals refine ⟨_, _, Store.get_set_self _ _ _, rfl, ?_⟩
    all_goals first
      | exact opt_ite_isSome_iff _ _
      | exact iff_of_true rfl (by assumption)
      | exact iff_of_false (by simp) (by assumption)
  · intro st id cid now st2 h
    unfold delete_clearing at h
    try dsimp only at h
    repeat' split at h
    all_goals simp only [Prod.mk.injEq, reduceCtorEq, false_and,
      true_and] at h
    all_goals subst h
    all_goals refine ⟨_, _, Store.get_set_self _ _ _, rfl, ?_⟩
    all_goals first
      | exact opt_ite_isSome_iff _ _
      | exact iff_of_true rfl (by assumption)
      | exact iff_of_false (by simp) (by assumption)

def c10rec : PendingRec :=
  { emptyRec with
    expense_id := "a1", status := "approved", expense_type := "accrued"
    amount := some 100, balance := some 100 }

def c10entry : ClearingEntry :=
  { clearing_id := "c1", amount := some 30
    paid_through_account_id := "cash", paid_through_account_name := ""
    date := none, reference_number := "", source_payment_id := ""
    receipts := [], created_at := 1 }

def c10drec : PendingRec :=
  { emptyRec with
    expense_id := "a1", status := "approved", expense_type := "accrued"
    amount := some 100, balance := some 70, clearing := [c10entry] }

def c10clr : Option PendingRec × Store :=
  clear_accrued [("a1", c10rec)] "a1" 7 100 "cash" none none none none none

theorem c10_cleared_at_iff_balance_nonpositive_witness :
    ((c10clr.2.get "a1" = some (c10clr.1.getD emptyRec)) ∧
      ∃ v, (c10clr.1.getD emptyRec).balance = some v ∧
        ((c10clr.1.getD emptyRec).cleared_at.isSome ↔ v ≤ 0)) ∧
    (∃ r' v, (delete_clearing [("a1", c10drec)] "a1" "c1" 9).2.get "a1"
          = some r' ∧
        r'.balance = some v ∧ (r'.cleared_at.isSome ↔ v ≤ 0)) ∧
    (∃ r' v, (update_clearing [("a1", c10drec)] "a1" "c1"
            { amount := some (some 100) } 9).2.get "a1" = some r' ∧
        r'.balance = some v ∧ (r'.cleared_at.isSome ↔ v ≤ 0)) :=
  ⟨c10_cleared_at_iff_balance_nonpositive.1 [("a1", c10rec)] "a1" 7 100
      "cash" none none none none none (c10clr.1.getD emptyRec) c10clr.2
      (by rfl),
   c10_cleared_at_iff_balance_nonpositive.2.2 [("a1", c10drec)] "a1" "c1"
      9 _ (by rfl),
   c10_cleared_at_iff_balance_nonpositive.2.1 [("a1", c10drec)] "a1" "c1"
      { amount := some (some 100) } 9 _ _ (by rfl)⟩

theorem Date.blt_iff (a b : Date) : Date.blt a b = true ↔
    (a.y < b.y ∨ (a.y = b.y ∧ (a.m < b.m ∨ (a.m = b.m ∧ a.d < b.d)))) := by
  unfold Date.blt
  simp [Bool.or_eq_true, Bool.and_eq_true, decide_eq_true_eq]

theorem Date.ble_iff (a b : Date) : Date.ble a b = true ↔
    (a.y < b.y ∨ (a.y = b.y ∧ (a.m < b.m ∨ (a.m = b.m ∧ a.d ≤ b.d)))) := by
  unfold Date.ble
  simp [Bool.or_eq_true, Bool.and_eq_true, decide_eq_true_eq]

theorem Date.not_blt_eq (x y : Date) : (!Date.blt x y) = Date.ble y x := by
  have h1 := Date.blt_iff x y
  have h2 := Date.ble_iff y x
  cases hb : Date.blt x y <;> cases hl : Date.ble y x <;> simp_all <;> omega

theorem dateFilterPass_none (d : Option Date) :
    dateFilterPass none none d = true := by
  cases d <;> rfl

theorem dateFilterPass_some_iff (a b : Date) (d : Option Date) :
    dateFilterPass (some a) (some b) d = true ↔
      ∃ dd, d = some dd ∧ Date.ble a dd = true ∧ Date.blt dd b = true := by
  cases d with
  | none => simp [dateFilterPass]
  | some dd =>
    simp only [dateFilterPass, Bool.and_eq_true, Date.not_blt_eq,
      Option.some.injEq]
    constructor
    · rintro ⟨h1, h2⟩
      exact ⟨dd, rfl, h1, h2⟩
    · rintro ⟨dd2, rfl, h1, h2⟩
      exact ⟨h1, h2⟩

theorem mem_list_approved (st : Store) (sd ed : Option (Option Date))
    (dcm : Bool) (today : Date) (r : PendingRec) :
    r ∈ list_approved st sd ed dcm today ↔
      r ∈ st.values ∧ r.status = "approved" ∧ effKind r = "expense" ∧
      dateFilterPass (approvedBounds sd ed dcm today).1
        (approvedBounds sd ed dcm today).2 r.date = true := by
  unfold list_approved
  rw [mem_sortRecsBy, List.mem_filter]
  simp [and_assoc]

/-- C8: with no explicit dates and `default_current_month = true`,
`list_approved` returns exactly the approved expense-kind records whose
date lies in `[first_of_month, first_of_next_month)` (end exclusive); with
no dates and the flag false there is no date restriction; with an explicit
range the window is exactly `[start_date, end_date)` — so a record dated
last month is excluded by the default window but included when an explicit
range spans it. -/
theorem c8_list_approved_window (st : Store) (today : Date)
    (r : PendingRec) (sd ed : Date) :
    (r ∈ list_approved st none none true today ↔
      r ∈ st.values ∧ r.status = "approved" ∧ effKind r = "expense" ∧
      ∃ d, r.date = some d ∧
        Date.ble (month_bounds today).1 d = true ∧
        Date.blt d (month_bounds today).2 = true) ∧
    (r ∈ list_approved st none none false today ↔
      r ∈ st.values ∧ r.status = "approved" ∧ effKind r = "expense") ∧
    (r ∈ list_approved st (some (some sd)) (some (some ed)) true today ↔
      r ∈ st.values ∧ r.status = "approved" ∧ effKind r = "expense" ∧
      ∃ d, r.date = some d ∧ Date.ble sd d = true ∧
        Date.blt d ed = true) := by
  refine ⟨?_, ?_, ?_⟩
  · rw [mem_list_approved]
    have hb : approvedBounds none none true today
        = (some (month_bounds today).1, some (month_bounds today).2) := by
      simp [approvedBounds]
    rw [hb, dateFilterPass_some_iff]
  · rw [mem_list_approved]
    have hb : approvedBounds none none false today = (none, none) := by
      simp [approvedBounds]
    rw [hb]
    simp [dateFilterPass_none]
  · rw [mem_list_approved]
    have hb : approvedBounds (some (some sd)) (some (some ed)) true today
        = (some sd, some ed) := by
      simp [approvedBounds]
    rw [hb, dateFilterPass_some_iff]

end PendingLedger
